import Mathlib

/-!
Verification of the voter-distribution-map front-end (React/TypeScript).

This file is a shallow embedding of the state and the state-transition
logic of the repository:

* `src/types.ts` — the `Voter` and `LocationPoint` records;
* `src/App.tsx` — the `App` component state, the LocalStorage persistence
  effect, the point/voter handlers, and the filter/sort bookkeeping;
* `src/components/MapComponents.tsx` — the multi-strategy `fetchSuggestions`
  search cascade and the debounced search box.

External collaborators (the browser's LocalStorage, `JSON.stringify` /
`JSON.parse`, the Nominatim and Overpass HTTP endpoints, `localeCompare`
collation, `crypto.randomUUID`, `Date.now`) are modelled as explicit
parameters; everything the repository itself computes is translated
directly from the source.  JavaScript numbers occurring in the records
(`lat`, `lng`, `count`, `createdAt`) are only ever copied around by the
code under verification, never computed with, so they are embedded as
`Int` / `Nat`.
-/

/-- `Voter` from `src/types.ts`. -/
structure Voter where
  id : String
  fullName : String
  phoneNumber : String
  createdAt : Nat
deriving DecidableEq, Repr

/-- `LocationPoint` from `src/types.ts`; the optional `voters?` field is an
`Option`. -/
structure LocationPoint where
  id : String
  lat : Int
  lng : Int
  name : String
  district : String
  count : Int
  createdAt : Nat
  voters : Option (List Voter) := none
deriving DecidableEq, Repr

/-- The mutable state of the `App` component (`src/App.tsx`), restricted to
the pieces the verified handlers touch.  `localStore` is the browser's
LocalStorage, a key-value map; `count` is the numeric form field whose
empty state `''` is `none`; `tempPoint` is the clicked map location. -/
structure AppState where
  points : List LocationPoint
  tempPoint : Option (Int × Int)
  name : String
  district : String
  count : Option Int
  hiddenPointIds : List String
  selectedDistrict : String
  selectedSchoolId : Option String
  localStore : String → Option String

/-- `localStorage.setItem`: overwrite one key, leave the rest. -/
def setItem (store : String → Option String) (key val : String) :
    String → Option String :=
  fun k => if k = key then some val else store k

/-- The persistence `useEffect` of `App` (src/App.tsx lines 454-457):
`localStorage.setItem('populationMapPoints', JSON.stringify(points))`,
run after every change of `points`.  `stringifyJson` models
`JSON.stringify`. -/
def persistPoints (stringifyJson : List LocationPoint → String)
    (st : AppState) : AppState :=
  { st with localStore :=
      setItem st.localStore "populationMapPoints" (stringifyJson st.points) }

/-- The `useState` initializer for `points` (src/App.tsx lines 422-431):
read `'populationMapPoints'`, JSON-parse it if truthy, fall back to `[]`
when the key is absent, the value is the (falsy) empty string, or
`JSON.parse` throws.  `parseJson` models `JSON.parse`, with `Except` for
the exception. -/
def initialPoints (store : String → Option String)
    (parseJson : String → Except String (List LocationPoint)) :
    List LocationPoint :=
  match store "populationMapPoints" with
  | some s =>
      if s = "" then []
      else
        match parseJson s with
        | Except.ok ps => ps
        | Except.error _ => []
  | none => []

/-- `handleAddPoint` (src/App.tsx lines 477-498).  `newId` models
`crypto.randomUUID()` and `now` models `Date.now()`.  The guard
`if (!tempPoint || !name || !district || count === '') return;` leaves the
state untouched; otherwise the new point is appended and the form plus
`tempPoint` are reset. -/
def handleAddPoint (newId : String) (now : Nat) (st : AppState) : AppState :=
  match st.tempPoint, st.count with
  | some tp, some c =>
      if st.name = "" ∨ st.district = "" then st
      else
        { st with
          points := st.points ++
            [{ id := newId, lat := tp.1, lng := tp.2, name := st.name,
               district := st.district, count := c, createdAt := now,
               voters := none }],
          name := "", district := "", count := none, tempPoint := none }
  | _, _ => st

/-- `handleDeletePoint` (src/App.tsx lines 500-502). -/
def handleDeletePoint (pid : String) (st : AppState) : AppState :=
  { st with points := st.points.filter (fun p => p.id != pid) }

/-- `handleAddVoter` (src/App.tsx lines 513-542).  Appends the new voter to
the roster of the point whose id is `selectedSchoolId`; the JS
`p.voters ? [...p.voters, newVoter] : [newVoter]` is append onto the
roster-so-far (`[]` when the field is absent).  With no selected school the
handler returns early. -/
def handleAddVoter (newId : String) (now : Nat)
    (fullName phoneNumber : String) (st : AppState) : AppState :=
  match st.selectedSchoolId with
  | none => st
  | some sid =>
      let newVoter : Voter :=
        { id := newId, fullName := fullName, phoneNumber := phoneNumber,
          createdAt := now }
      { st with points := st.points.map (fun p =>
          if p.id = sid then
            { p with voters := some ((p.voters.getD []) ++ [newVoter]) }
          else p) }

/-- `handleDeleteVoter` (src/App.tsx lines 544-556).  The JS
`p.voters?.filter(v => v.id !== voterId) || []` filters the roster-so-far
(`[]` when the field is absent). -/
def handleDeleteVoter (voterId : String) (st : AppState) : AppState :=
  match st.selectedSchoolId with
  | none => st
  | some sid =>
      { st with points := st.points.map (fun p =>
          if p.id = sid then
            { p with
              voters := some ((p.voters.getD []).filter
                (fun v => v.id != voterId)) }
          else p) }

/-- `districtFilteredPoints` (src/App.tsx lines 567-570): all points when no
district is selected (`''`), else the points of the selected district. -/
def districtFilteredPoints (points : List LocationPoint)
    (selectedDistrict : String) : List LocationPoint :=
  if selectedDistrict = "" then points
  else points.filter (fun p => p.district == selectedDistrict)

/-- `sortedPointsForFilter` (src/App.tsx lines 572-575):
`[...districtFilteredPoints].sort((a, b) => a.name.localeCompare(b.name))`.
`lc` models the browser's `String.prototype.localeCompare`; JS `sort` with
comparator `cmp` is a stable sort by `cmp a b ≤ 0`, embedded as
`mergeSort`. -/
def sortedPointsForFilter (lc : String → String → Int)
    (points : List LocationPoint) (selectedDistrict : String) :
    List LocationPoint :=
  (districtFilteredPoints points selectedDistrict).mergeSort
    (fun a b => lc a.name b.name ≤ 0)

/-- `filteredPoints` (src/App.tsx line 594):
`districtFilteredPoints.filter(p => !hiddenPointIds.includes(p.id))`. -/
def filteredPoints (points : List LocationPoint)
    (selectedDistrict : String) (hiddenPointIds : List String) :
    List LocationPoint :=
  (districtFilteredPoints points selectedDistrict).filter
    (fun p => !(hiddenPointIds.contains p.id))

/-- `togglePointVisibility` (src/App.tsx lines 577-583), as the update it
applies to the `hiddenPointIds` list. -/
def togglePointVisibility (id : String) (prev : List String) : List String :=
  if prev.contains id then prev.filter (fun hid => hid != id)
  else prev ++ [id]

example : togglePointVisibility "a" ["a", "b"] = ["b"] := by decide
example : togglePointVisibility "c" ["a", "b"] = ["a", "b", "c"] := by decide

/-! ### The multi-strategy search of `MapComponents.tsx` -/

/-- One global-regex character-class replacement, as used by
`normalizeArabic`: every character in `targets` becomes the literal
replacement string. -/
def replaceChars (targets : List Char) (repl : String) (s : String) : String :=
  String.join (s.data.map (fun c => if targets.contains c then repl
                                    else Char.toString c))

/-- `normalizeArabic` (src/components/MapComponents.tsx lines 212-217): the
three successive `String.replace` calls turning Arabic orthographic
variants into regex character classes. -/
def normalizeArabic (text : String) : String :=
  replaceChars ['ي', 'ى'] "[يى]"
    (replaceChars ['ة', 'ه'] "[ةه]"
      (replaceChars ['ا', 'أ', 'إ', 'آ'] "[اأإآ]" text))

/-- The `stopWords` array of strategy 4 (src/components/MapComponents.tsx
lines 279-285), in source order — the order is the alternation order of the
regex `new RegExp(stopWords.join("|"), "gi")`. -/
def stopWords : List String :=
  ["school", "high", "secondary", "prep", "preparatory", "primary",
   "elementary", "kindergarten",
   "girls", "boys", "mixed", "vocational", "commercial", "industrial",
   "institute",
   "مدرسة", "ثانوية", "اعدادية", "متوسطة", "ابتدائية", "روضة", "معهد",
   "للبنات", "للبنين", "بنات", "بنين", "مختلطة",
   "المهنية", "الصناعية", "التجارية", "الفنون", "للدراسات", "الأهلية",
   "الحكومية"]

/-- Case-insensitive prefix test (the `i` regex flag; simple case folding,
which for the ASCII stop words is `Char.toLower`). -/
def ciPrefixChars : List Char → List Char → Bool
  | [], _ => true
  | _ :: _, [] => false
  | p :: ps, c :: cs => (p.toLower == c.toLower) && ciPrefixChars ps cs

theorem stopWords_length_pos : ∀ w ∈ stopWords, 1 ≤ w.length := by decide

/-- `searchQuery.replace(regex, "")` for the alternation regex over
`stopWords`: scan left to right; at each position try the alternatives in
array order and drop the first (case-insensitive) match, else keep the
character. -/
def stripStopWords : List Char → List Char
  | [] => []
  | c :: rest =>
    match h : stopWords.find? (fun w => ciPrefixChars w.data (c :: rest)) with
    | some w => stripStopWords (List.drop w.length (c :: rest))
    | none => c :: stripStopWords rest
termination_by cs => cs.length
decreasing_by
  · have hw : w ∈ stopWords := List.mem_of_find?_eq_some h
    have hpos : 1 ≤ w.length := stopWords_length_pos w hw
    simp only [List.length_drop, List.length_cons]
    omega
  · simp

/-- JS `\s` for the character data appearing here (ASCII whitespace). -/
def isJsSpace (c : Char) : Bool :=
  c == ' ' || c == '\t' || c == '\n' || c == '\r' || c == '\x0b' || c == '\x0c'

/-- `.replace(/\s+/g, " ")`: collapse every whitespace run to one space. -/
def collapseSpaces : List Char → List Char
  | [] => []
  | c :: rest =>
    if isJsSpace c then ' ' :: collapseSpaces (rest.dropWhile isJsSpace)
    else c :: collapseSpaces rest
termination_by cs => cs.length
decreasing_by
  · have : (rest.dropWhile isJsSpace).length ≤ rest.length :=
      List.Sublist.length_le (List.dropWhile_sublist isJsSpace)
    simp only [List.length_cons]
    omega
  · simp

/-- JS `String.prototype.trim`: drop whitespace from both ends. -/
def jsTrim (s : String) : String :=
  String.mk (((s.data.dropWhile isJsSpace).reverse.dropWhile isJsSpace).reverse)

/-- The `coreName` of strategy 4 (src/components/MapComponents.tsx line
291): `searchQuery.replace(regex, "").replace(/\s+/g, " ").trim()`. -/
def coreNameOf (searchQuery : String) : String :=
  jsTrim (String.mk (collapseSpaces (stripStopWords searchQuery.data)))

/-- Plain (case-sensitive) prefix test on character lists. -/
def isPrefixChars : List Char → List Char → Bool
  | [], _ => true
  | _ :: _, [] => false
  | p :: ps, c :: cs => (p == c) && isPrefixChars ps cs

/-- Substring occurrence on character lists. -/
def isInfixChars (pat : List Char) : List Char → Bool
  | [] => isPrefixChars pat []
  | c :: cs => isPrefixChars pat (c :: cs) || isInfixChars pat cs

/-- JS `String.prototype.includes` (case-sensitive substring test), used by
the strategy-5 guard. -/
def strIncludes (s pat : String) : Bool := isInfixChars pat.data s.data

example : strIncludes "abc school x" "school" = true := by decide
example : strIncludes "abc School x" "school" = false := by decide

/-- The two external search services, as black-box oracles returning the
already-decoded result lists: `nominatim q bounded` is
`fetchWithParams(q, bounded)` (the constant `format/countrycodes/
accept-language/limit/viewbox` parameters live inside the oracle, `bounded`
is the varying one), and `overpass pat` is the Overpass interpreter call on
the regex pattern `pat`, with the element-to-suggestion mapping and the
lat/lon filter applied. -/
structure SearchOracles (α : Type) where
  nominatim : String → Nat → List α
  overpass : String → List α

/-- `searchOverpass` (src/components/MapComponents.tsx lines 205-257): the
Overpass query is built from the Arabic-normalized regex of the query. -/
def searchOverpass {α : Type} (o : SearchOracles α) (q : String) : List α :=
  o.overpass (normalizeArabic q)

/-- The data selection of `fetchSuggestions` (src/components/
MapComponents.tsx lines 259-308): the five-strategy cascade, each tried
only while `data` is still empty, written exactly in source order. -/
def fetchSuggestionsData {α : Type} (o : SearchOracles α)
    (searchQuery : String) : List α :=
  -- Strategy 1: Strict Search (Nominatim, bounded=1)
  let data1 := o.nominatim searchQuery 1
  -- Strategy 2: Overpass API (fuzzy name search)
  let data2 := if data1.isEmpty then searchOverpass o searchQuery else data1
  -- Strategy 3: Relaxed Search (Nominatim, bounded=0)
  let data3 := if data2.isEmpty then o.nominatim searchQuery 0 else data2
  -- Strategy 4: Smart Tokenizer / stop-word stripping
  let coreName := coreNameOf searchQuery
  let data4 :=
    if data3.isEmpty then
      if coreName ≠ "" ∧ 3 ≤ coreName.length ∧ coreName ≠ searchQuery then
        let a := searchOverpass o coreName
        if a.isEmpty then o.nominatim coreName 0 else a
      else data3
    else data3
  -- Strategy 5: "مدرسة" prefix retry
  if data4.isEmpty then
    if !(strIncludes searchQuery "مدرسة") && !(strIncludes searchQuery "school")
    then o.nominatim ("مدرسة " ++ searchQuery) 1
    else data4
  else data4

/-- Tags for the individual search invocations of the cascade, one per
strategy step, in strategy order. -/
inductive Strat where
  | strictNominatim
  | fuzzyOverpass
  | relaxedNominatim
  | coreOverpass
  | coreNominatim
  | prefixRetry
deriving DecidableEq, Repr

/-- The invocation trace of `fetchSuggestionsData`: the searches actually
performed, in execution order, each with the result list it returned. -/
def fetchTrace {α : Type} (o : SearchOracles α) (searchQuery : String) :
    List (Strat × List α) :=
  let d1 := o.nominatim searchQuery 1
  (Strat.strictNominatim, d1) ::
    if !d1.isEmpty then []
    else
      let d2 := searchOverpass o searchQuery
      (Strat.fuzzyOverpass, d2) ::
        if !d2.isEmpty then []
        else
          let d3 := o.nominatim searchQuery 0
          (Strat.relaxedNominatim, d3) ::
            if !d3.isEmpty then []
            else
              let coreName := coreNameOf searchQuery
              let t4 : List (Strat × List α) :=
                if coreName ≠ "" ∧ 3 ≤ coreName.length ∧ coreName ≠ searchQuery
                then
                  let a := searchOverpass o coreName
                  (Strat.coreOverpass, a) ::
                    if !a.isEmpty then []
                    else [(Strat.coreNominatim, o.nominatim coreName 0)]
                else []
              let d4 :=
                if coreName ≠ "" ∧ 3 ≤ coreName.length ∧ coreName ≠ searchQuery
                then
                  let a := searchOverpass o coreName
                  if a.isEmpty then o.nominatim coreName 0 else a
                else ([] : List α)
              t4 ++
                if d4.isEmpty then
                  if !(strIncludes searchQuery "مدرسة") &&
                     !(strIncludes searchQuery "school")
                  then [(Strat.prefixRetry,
                         o.nominatim ("مدرسة " ++ searchQuery) 1)]
                  else []
                else []

/-- The result of the first strategy invocation that returned a non-empty
list (`[]` when none did). -/
def firstNonEmptyResult {α : Type} (trace : List (Strat × List α)) : List α :=
  match trace.find? (fun e => !e.2.isEmpty) with
  | some e => e.2
  | none => []

/-! ### `fetchSuggestions` with failing requests, and the search-box state -/

/-- The pieces of `MapSearch` component state that `fetchSuggestions`
writes: `suggestions`, `showSuggestions`, `isSearching`. -/
structure SearchState (α : Type) where
  suggestions : List α
  showSuggestions : Bool
  isSearching : Bool
deriving DecidableEq, Repr

/-- The search oracles where a request may also throw (network failure,
malformed JSON, ...): `Except ε` is the thrown exception. -/
structure SearchOraclesE (ε α : Type) where
  nominatim : String → Nat → Except ε (List α)
  overpass : String → Except ε (List α)

/-- `searchOverpass` under failures: its own `try`/`catch` logs the error
and returns `[]`, so an Overpass failure never escapes. -/
def searchOverpassE {ε α : Type} (o : SearchOraclesE ε α) (q : String) :
    List α :=
  match o.overpass (normalizeArabic q) with
  | Except.ok l => l
  | Except.error _ => []

/-- The cascade of `fetchSuggestionsData` with throwing Nominatim requests:
any `fetchWithParams` throw aborts the cascade (to be caught by the outer
`catch` of `fetchSuggestions`). -/
def cascadeE {ε α : Type} (o : SearchOraclesE ε α) (searchQuery : String) :
    Except ε (List α) := do
  let data1 ← o.nominatim searchQuery 1
  let data2 := if data1.isEmpty then searchOverpassE o searchQuery else data1
  let data3 ← if data2.isEmpty then o.nominatim searchQuery 0 else pure data2
  let coreName := coreNameOf searchQuery
  let data4 ←
    if data3.isEmpty then
      if coreName ≠ "" ∧ 3 ≤ coreName.length ∧ coreName ≠ searchQuery then
        let a := searchOverpassE o coreName
        if a.isEmpty then o.nominatim coreName 0 else pure a
      else pure data3
    else pure data3
  if data4.isEmpty then
    if !(strIncludes searchQuery "مدرسة") && !(strIncludes searchQuery "school")
    then o.nominatim ("مدرسة " ++ searchQuery) 1
    else pure data4
  else pure data4

/-- The full `fetchSuggestions` (src/components/MapComponents.tsx lines
194-315) as a state update: `setIsSearching(true)`, run the cascade, on
success `setSuggestions(data); setShowSuggestions(true)`, on a throw
`console.error` it (not modelled) and change nothing else, and in both
cases `finally setIsSearching(false)`. -/
def runFetchSuggestions {ε α : Type} (o : SearchOraclesE ε α)
    (searchQuery : String) (st : SearchState α) : SearchState α :=
  match cascadeE o searchQuery with
  | Except.ok data =>
      { suggestions := data, showSuggestions := true, isSearching := false }
  | Except.error _ => { st with isSearching := false }

/-! ### The debounced search box -/

/-- The debounce delay of the `MapSearch` `useEffect` (src/components/
MapComponents.tsx line 169). -/
def debounceMs : Nat := 500

/-- What the debounce timeout callback does when it fires. -/
inductive SearchAction where
  /-- `fetchSuggestions(query)` is invoked. -/
  | fetch (q : String)
  /-- `setSuggestions([]); setShowSuggestions(false)` — the suggestion list
  is cleared and the dropdown hidden. -/
  | clearAndHide
deriving DecidableEq, Repr

/-- The body of the debounce timeout (src/components/MapComponents.tsx
lines 158-168): fetch for trimmed queries of length at least 2, clear and
hide otherwise. -/
def debounceBody (query : String) : SearchAction :=
  if 2 ≤ (jsTrim query).length then SearchAction.fetch query
  else SearchAction.clearAndHide

/-- The `setSuggestions([]); setShowSuggestions(false)` branch as a
`SearchState` update. -/
def clearAndHideUpdate {α : Type} (st : SearchState α) : SearchState α :=
  { st with suggestions := [], showSuggestions := false }

/-- Timer semantics of the debounce `useEffect` and its cleanup.  `pending`
is the currently scheduled timeout (fire time and captured query);
`inputs` are the remaining query changes `(time, newQuery)` in time order,
each of which runs the cleanup (`clearTimeout`) and schedules a fresh
timeout at `time + debounceMs`; `tEnd` is the observation time.  A pending
timeout fires iff its fire time arrives before the next query change (and
before `tEnd`).  Returns the captured queries whose callbacks fired, in
order. -/
def firedQueries : Option (Nat × String) → List (Nat × String) → Nat →
    List String
  | none, [], _ => []
  | some (tf, qp), [], tEnd => if tf ≤ tEnd then [qp] else []
  | none, (t, q) :: rest, tEnd =>
      firedQueries (some (t + debounceMs, q)) rest tEnd
  | some (tf, qp), (t, q) :: rest, tEnd =>
      if tf ≤ t then
        qp :: firedQueries (some (t + debounceMs, q)) rest tEnd
      else firedQueries (some (t + debounceMs, q)) rest tEnd

/-- The callback actions performed by the debounced search box over a
typing timeline, observed at `tEnd`. -/
def debounceActions (inputs : List (Nat × String)) (tEnd : Nat) :
    List SearchAction :=
  (firedQueries none inputs tEnd).map debounceBody

example :
    debounceActions [(0, "ab"), (100, "abc")] 1000 =
      [SearchAction.fetch "abc"] := by decide
example :
    debounceActions [(0, "ab"), (600, "a")] 1200 =
      [SearchAction.fetch "ab", SearchAction.clearAndHide] := by decide

/-! ### Shared helper lemmas -/

theorem forall₂_map_of_pointwise {α β : Type} (R : α → β → Prop) (f : α → β)
    (h : ∀ a, R a (f a)) (l : List α) : List.Forall₂ R l (l.map f) := by
  induction l with
  | nil => exact List.Forall₂.nil
  | cons a t ih => exact List.Forall₂.cons (h a) ih

theorem handleAddPoint_localStore (newId : String) (now : Nat)
    (st : AppState) :
    (handleAddPoint newId now st).localStore = st.localStore := by
  unfold handleAddPoint
  split
  · split <;> rfl
  · rfl

theorem handleDeletePoint_localStore (pid : String) (st : AppState) :
    (handleDeletePoint pid st).localStore = st.localStore := rfl

theorem handleAddVoter_localStore (newId : String) (now : Nat)
    (fullName phoneNumber : String) (st : AppState) :
    (handleAddVoter newId now fullName phoneNumber st).localStore =
      st.localStore := by
  unfold handleAddVoter
  split <;> rfl

theorem handleDeleteVoter_localStore (voterId : String) (st : AppState) :
    (handleDeleteVoter voterId st).localStore = st.localStore := by
  unfold handleDeleteVoter
  split <;> rfl

theorem handleAddVoter_none (newId : String) (now : Nat)
    (fullName phoneNumber : String) (st : AppState)
    (h : st.selectedSchoolId = none) :
    handleAddVoter newId now fullName phoneNumber st = st := by
  unfold handleAddVoter
  rw [h]

theorem handleDeleteVoter_none (voterId : String) (st : AppState)
    (h : st.selectedSchoolId = none) :
    handleDeleteVoter voterId st = st := by
  unfold handleDeleteVoter
  rw [h]

theorem handleAddVoter_points_some (newId : String) (now : Nat)
    (fullName phoneNumber sid : String) (st : AppState)
    (h : st.selectedSchoolId = some sid) :
    (handleAddVoter newId now fullName phoneNumber st).points =
      st.points.map (fun p =>
        if p.id = sid then
          { p with voters := some ((p.voters.getD []) ++
              [{ id := newId, fullName := fullName,
                 phoneNumber := phoneNumber, createdAt := now }]) }
        else p) := by
  unfold handleAddVoter
  rw [h]

theorem handleDeleteVoter_points_some (voterId sid : String) (st : AppState)
    (h : st.selectedSchoolId = some sid) :
    (handleDeleteVoter voterId st).points =
      st.points.map (fun p =>
        if p.id = sid then
          { p with voters := some ((p.voters.getD []).filter
              (fun v => v.id != voterId)) }
        else p) := by
  unfold handleDeleteVoter
  rw [h]

/-! ### C10 — `togglePointVisibility` flips membership and is self-inverse -/

/-- C10: `togglePointVisibility` is self-inverse on membership: applying it
twice yields a list with the same membership, and a single application
flips whether `id` is a member — removing every occurrence if present,
appending it once if absent. -/
theorem togglePointVisibility_spec (id : String) (prev : List String) :
    (∀ x, x ∈ togglePointVisibility id (togglePointVisibility id prev) ↔
        x ∈ prev)
    ∧ (id ∈ prev →
        togglePointVisibility id prev = prev.filter (fun hid => hid != id))
    ∧ (id ∉ prev → togglePointVisibility id prev = prev ++ [id])
    ∧ (id ∈ togglePointVisibility id prev ↔ id ∉ prev) := by
  by_cases hmem : id ∈ prev
  · have h1 : togglePointVisibility id prev =
        prev.filter (fun hid => hid != id) := by
      simp [togglePointVisibility, hmem]
    have hnot : id ∉ prev.filter (fun hid => hid != id) := by
      simp [List.mem_filter]
    refine ⟨?_, fun _ => h1, fun h => absurd hmem h, ?_⟩
    · intro x
      rw [h1]
      have h2 : togglePointVisibility id (prev.filter (fun hid => hid != id))
          = prev.filter (fun hid => hid != id) ++ [id] := by
        simp [togglePointVisibility, hnot]
      rw [h2]
      by_cases hx : x = id
      · subst hx
        simp [hmem]
      · simp [List.mem_filter, hx]
    · rw [h1]
      simp [hnot, hmem]
  · have h1 : togglePointVisibility id prev = prev ++ [id] := by
      simp [togglePointVisibility, hmem]
    refine ⟨?_, fun h => absurd h hmem, fun _ => h1, ?_⟩
    · intro x
      rw [h1]
      have h2 : togglePointVisibility id (prev ++ [id]) =
          (prev ++ [id]).filter (fun hid => hid != id) := by
        simp [togglePointVisibility]
      rw [h2, List.filter_append]
      have h3 : prev.filter (fun hid => hid != id) = prev :=
        List.filter_eq_self.mpr (fun a ha => by
          simp only [bne_iff_ne, ne_eq, decide_eq_true_eq]
          exact fun hEq => hmem (hEq ▸ ha))
      simp [h3]
    · rw [h1]
      simp [hmem]

/-- C10 witness: toggling `"a"` out of `["a", "b"]`. -/
theorem togglePointVisibility_spec_witness :
    togglePointVisibility "a" ["a", "b"] =
      List.filter (fun hid => hid != "a") ["a", "b"] :=
  (togglePointVisibility_spec "a" ["a", "b"]).2.1 (by decide)

/-! ### C9 — `handleAddPoint` appends exactly under its guard -/

/-- C9: when a map location is selected and name, district and count are
all non-empty, `handleAddPoint` appends exactly one new point (carrying
the clicked coordinates, the form fields and the numeric count) at the end
of `points` and resets the form and `tempPoint`; when any precondition
fails it returns early, leaving points and form state unchanged. -/
theorem handleAddPoint_spec (newId : String) (now : Nat) (st : AppState) :
    (∀ tp c, st.tempPoint = some tp → st.count = some c →
      st.name ≠ "" → st.district ≠ "" →
      handleAddPoint newId now st =
        { st with
          points := st.points ++
            [{ id := newId, lat := tp.1, lng := tp.2, name := st.name,
               district := st.district, count := c, createdAt := now,
               voters := none }],
          name := "", district := "", count := none, tempPoint := none })
    ∧ ((st.tempPoint = none ∨ st.name = "" ∨ st.district = "" ∨
        st.count = none) → handleAddPoint newId now st = st) := by
  constructor
  · intro tp c h1 h2 h3 h4
    unfold handleAddPoint
    rw [h1, h2]
    exact if_neg (not_or.mpr ⟨h3, h4⟩)
  · intro h
    unfold handleAddPoint
    rcases htp : st.tempPoint with _ | tp <;>
      rcases hc : st.count with _ | c <;> try rfl
    rcases h with h | h | h | h
    · rw [htp] at h
      exact absurd h (by simp)
    · exact if_pos (Or.inl h)
    · exact if_pos (Or.inr h)
    · rw [hc] at h
      exact absurd h (by simp)

/-- A concrete filled-in form state for the C9 witness. -/
def addFormState : AppState :=
  { points := [], tempPoint := some (33, 44), name := "School A",
    district := "Karkh", count := some 120, hiddenPointIds := [],
    selectedDistrict := "", selectedSchoolId := none,
    localStore := fun _ => none }

/-- C9 witness: both the append case (filled form) and the early-return
case (no `tempPoint`). -/
theorem handleAddPoint_spec_witness :
    handleAddPoint "u1" 99 addFormState =
      { addFormState with
        points := addFormState.points ++
          [{ id := "u1", lat := 33, lng := 44, name := "School A",
             district := "Karkh", count := 120, createdAt := 99,
             voters := none }],
        name := "", district := "", count := none, tempPoint := none }
    ∧ handleAddPoint "u1" 99 { addFormState with tempPoint := none } =
        { addFormState with tempPoint := none } :=
  ⟨(handleAddPoint_spec "u1" 99 addFormState).1 (33, 44) 120 rfl rfl
      (by decide) (by decide),
   (handleAddPoint_spec "u1" 99 { addFormState with tempPoint := none }).2
      (Or.inl rfl)⟩

/-! ### C6 — voter rosters are strictly per-location -/

/-- C6: `handleAddVoter` appends the new voter only to the roster of the
point whose id is `selectedSchoolId` (creating the roster if absent) and
`handleDeleteVoter` removes voters only from that point's roster; every
other point is returned unchanged, and with no selected school both
handlers leave `points` entirely unchanged. -/
theorem voterOps_per_location (newId : String) (now : Nat)
    (fullName phoneNumber voterId : String) (st : AppState) :
    (st.selectedSchoolId = none →
      handleAddVoter newId now fullName phoneNumber st = st ∧
      handleDeleteVoter voterId st = st)
    ∧ (∀ sid, st.selectedSchoolId = some sid →
        List.Forall₂ (fun p q =>
            q = if p.id = sid then
                  { p with voters := some ((p.voters.getD []) ++
                      [{ id := newId, fullName := fullName,
                         phoneNumber := phoneNumber, createdAt := now }]) }
                else p)
          st.points (handleAddVoter newId now fullName phoneNumber st).points
        ∧ List.Forall₂ (fun p q =>
            q = if p.id = sid then
                  { p with voters := some ((p.voters.getD []).filter
                      (fun v => v.id != voterId)) }
                else p)
          st.points (handleDeleteVoter voterId st).points) := by
  constructor
  · intro h
    exact ⟨handleAddVoter_none newId now fullName phoneNumber st h,
           handleDeleteVoter_none voterId st h⟩
  · intro sid h
    constructor
    · rw [handleAddVoter_points_some newId now fullName phoneNumber sid st h]
      exact forall₂_map_of_pointwise (fun p q => q = _) (fun p =>
        if p.id = sid then
          { p with voters := some ((p.voters.getD []) ++
              [{ id := newId, fullName := fullName,
                 phoneNumber := phoneNumber, createdAt := now }]) }
        else p) (fun p => rfl) st.points
    · rw [handleDeleteVoter_points_some voterId sid st h]
      exact forall₂_map_of_pointwise (fun p q => q = _) (fun p =>
        if p.id = sid then
          { p with voters := some ((p.voters.getD []).filter
              (fun v => v.id != voterId)) }
        else p) (fun p => rfl) st.points

/-- A one-point state with a selected school for the C6/C8 witnesses. -/
def selectedSchoolState : AppState :=
  { points := [{ id := "p1", lat := 1, lng := 2, name := "School A",
                 district := "D", count := 100, createdAt := 0,
                 voters := none }],
    tempPoint := none, name := "", district := "", count := none,
    hiddenPointIds := [], selectedDistrict := "",
    selectedSchoolId := some "p1", localStore := fun _ => none }

/-- The same state with no school selected. -/
def noSchoolState : AppState :=
  { selectedSchoolState with selectedSchoolId := none }

/-- C6 witness: the no-selection frame case and the per-location append
case on concrete states. -/
theorem voterOps_per_location_witness :
    handleAddVoter "v1" 5 "Ali" "0770" noSchoolState = noSchoolState
    ∧ List.Forall₂ (fun p q =>
        q = if p.id = "p1" then
              { p with voters := some ((p.voters.getD []) ++
                  [{ id := "v1", fullName := "Ali", phoneNumber := "0770",
                     createdAt := 5 }]) }
            else p)
      selectedSchoolState.points
      (handleAddVoter "v1" 5 "Ali" "0770" selectedSchoolState).points :=
  ⟨((voterOps_per_location "v1" 5 "Ali" "0770" "x" noSchoolState).1 rfl).1,
   ((voterOps_per_location "v1" 5 "Ali" "0770" "x"
      selectedSchoolState).2 "p1" rfl).1⟩

/-! ### C8 — roster edits never touch the point's metadata -/

/-- C8: adding or deleting a voter never changes any point's `id`, `lat`,
`lng`, `name`, `district`, `count` or `createdAt`; in particular the
stored `count` is independent of the roster length (on the concrete
demonstration state the updated point has `count = 100` but a roster of
length 1). -/
theorem voterOps_preserve_metadata (newId : String) (now : Nat)
    (fullName phoneNumber voterId : String) (st : AppState) :
    List.Forall₂ (fun p q =>
        q.id = p.id ∧ q.lat = p.lat ∧ q.lng = p.lng ∧ q.name = p.name ∧
        q.district = p.district ∧ q.count = p.count ∧
        q.createdAt = p.createdAt)
      st.points (handleAddVoter newId now fullName phoneNumber st).points
    ∧ List.Forall₂ (fun p q =>
        q.id = p.id ∧ q.lat = p.lat ∧ q.lng = p.lng ∧ q.name = p.name ∧
        q.district = p.district ∧ q.count = p.count ∧
        q.createdAt = p.createdAt)
      st.points (handleDeleteVoter voterId st).points
    ∧ (handleAddVoter "v1" 5 "Ali" "0770" selectedSchoolState).points.map
        (fun p => (p.count, (p.voters.getD []).length)) = [(100, 1)] := by
  refine ⟨?_, ?_, by decide⟩
  · rcases h : st.selectedSchoolId with _ | sid
    · rw [handleAddVoter_none newId now fullName phoneNumber st h]
      exact List.forall₂_same.mpr
        (fun p _ => ⟨rfl, rfl, rfl, rfl, rfl, rfl, rfl⟩)
    · rw [handleAddVoter_points_some newId now fullName phoneNumber sid st h]
      refine forall₂_map_of_pointwise _ _ (fun p => ?_) st.points
      by_cases hp : p.id = sid <;> simp [hp]
  · rcases h : st.selectedSchoolId with _ | sid
    · rw [handleDeleteVoter_none voterId st h]
      exact List.forall₂_same.mpr
        (fun p _ => ⟨rfl, rfl, rfl, rfl, rfl, rfl, rfl⟩)
    · rw [handleDeleteVoter_points_some voterId sid st h]
      refine forall₂_map_of_pointwise _ _ (fun p => ?_) st.points
      by_cases hp : p.id = sid <;> simp [hp]

/-! ### C2 — every points mutation persists to the single key -/

/-- C2: after any of the four points-mutating handlers, the persistence
effect serializes the whole new array into the single LocalStorage key
`'populationMapPoints'`, unconditionally overwriting it (last write wins),
and touches no other key. -/
theorem persistence_single_key (stringifyJson : List LocationPoint → String)
    (newId pid vId voterId fullName phoneNumber : String) (now vnow : Nat)
    (st st' : AppState)
    (hop : st' = handleAddPoint newId now st ∨
           st' = handleDeletePoint pid st ∨
           st' = handleAddVoter vId vnow fullName phoneNumber st ∨
           st' = handleDeleteVoter voterId st) :
    (persistPoints stringifyJson st').localStore "populationMapPoints" =
      some (stringifyJson st'.points)
    ∧ ∀ k, k ≠ "populationMapPoints" →
        (persistPoints stringifyJson st').localStore k = st.localStore k := by
  constructor
  · simp [persistPoints, setItem]
  · intro k hk
    have hstore : st'.localStore = st.localStore := by
      rcases hop with h | h | h | h <;> rw [h]
      · exact handleAddPoint_localStore newId now st
      · exact handleDeletePoint_localStore pid st
      · exact handleAddVoter_localStore vId vnow fullName phoneNumber st
      · exact handleDeleteVoter_localStore voterId st
    simp [persistPoints, setItem, hk, hstore]

/-- C2 witness: deleting a point from a concrete state writes the key and
leaves a different key untouched. -/
theorem persistence_single_key_witness :
    (persistPoints (fun ps => toString ps.length)
        (handleDeletePoint "p1" selectedSchoolState)).localStore
        "populationMapPoints" =
      some (toString (handleDeletePoint "p1" selectedSchoolState).points.length)
    ∧ (persistPoints (fun ps => toString ps.length)
        (handleDeletePoint "p1" selectedSchoolState)).localStore "other" =
      none :=
  ⟨(persistence_single_key (fun ps => toString ps.length)
      "x" "p1" "x" "x" "x" "x" 0 0 selectedSchoolState
      (handleDeletePoint "p1" selectedSchoolState)
      (Or.inr (Or.inl rfl))).1,
   (persistence_single_key (fun ps => toString ps.length)
      "x" "p1" "x" "x" "x" "x" 0 0 selectedSchoolState
      (handleDeletePoint "p1" selectedSchoolState)
      (Or.inr (Or.inl rfl))).2 "other" (by decide)⟩

/-! ### C7 — startup loads the persisted points -/

/-- C7: the `points` initializer loads the persisted store: when the key
holds a value that `JSON.parse` accepts the initial array is exactly the
parse result, and when the key is absent it is empty.  The hypothesis
`hEmptyJson` records that `JSON.parse` rejects the empty string (the one
string that is falsy in the JS truthiness test of the initializer). -/
theorem initialPoints_loads_store (store : String → Option String)
    (parseJson : String → Except String (List LocationPoint))
    (hEmptyJson : ∀ l, parseJson "" ≠ Except.ok l) :
    (∀ s ps, store "populationMapPoints" = some s →
        parseJson s = Except.ok ps → initialPoints store parseJson = ps)
    ∧ (store "populationMapPoints" = none →
        initialPoints store parseJson = []) := by
  constructor
  · intro s ps hs hp
    unfold initialPoints
    rw [hs]
    show (if s = "" then [] else
        match parseJson s with
        | Except.ok ps => ps
        | Except.error _ => []) = ps
    by_cases he : s = ""
    · subst he
      exact absurd hp (hEmptyJson ps)
    · rw [if_neg he, hp]
  · intro h
    unfold initialPoints
    rw [h]

/-- A LocalStorage holding a valid serialization in the points key. -/
def goodStore : String → Option String :=
  fun k => if k = "populationMapPoints" then some "[]" else none

/-- A `JSON.parse` model accepting exactly the string `"[]"`. -/
def goodParse : String → Except String (List LocationPoint) :=
  fun s => if s = "[]" then Except.ok [] else Except.error "SyntaxError"

/-- C7 witness: loading `"[]"` from the key yields the parsed (empty)
array. -/
theorem initialPoints_loads_store_witness :
    initialPoints goodStore goodParse = [] :=
  (initialPoints_loads_store goodStore goodParse
      (fun l h => by
        rw [show goodParse "" = Except.error "SyntaxError" from rfl] at h
        exact Except.noConfusion h)).1
    "[]" [] rfl rfl

/-! ### C3 — errors are swallowed and logged, never propagated -/

/-- C3: a throwing `JSON.parse` during initialization yields the empty
initial array, and a throwing search request inside `fetchSuggestions`
leaves the suggestions and dropdown state as they were while still
resetting `isSearching` to `false` (the `catch` only logs, the `finally`
clears the flag); in neither place does the exception escape. -/
theorem errors_swallowed (ε α : Type) :
    (∀ (store : String → Option String)
       (parseJson : String → Except String (List LocationPoint))
       (s err : String),
        store "populationMapPoints" = some s →
        parseJson s = Except.error err →
        initialPoints store parseJson = [])
    ∧ (∀ (o : SearchOraclesE ε α) (q : String) (st : SearchState α) (e : ε),
        cascadeE o q = Except.error e →
        runFetchSuggestions o q st = { st with isSearching := false }) := by
  constructor
  · intro store parseJson s err hs hp
    unfold initialPoints
    rw [hs]
    show (if s = "" then [] else
        match parseJson s with
        | Except.ok ps => ps
        | Except.error _ => []) = []
    by_cases he : s = ""
    · rw [if_pos he]
    · rw [if_neg he, hp]
  · intro o q st e hc
    unfold runFetchSuggestions
    rw [hc]

/-- Oracles whose every request throws. -/
def throwingOracles : SearchOraclesE Nat Nat :=
  { nominatim := fun _ _ => Except.error 7, overpass := fun _ => Except.error 7 }

/-- A search state with existing suggestions and an open dropdown. -/
def busySearchState : SearchState Nat :=
  { suggestions := [3, 4], showSuggestions := true, isSearching := true }

/-- C3 witness: a malformed stored value initializes to `[]`, and a failing
search leaves the suggestions in place with `isSearching` reset. -/
theorem errors_swallowed_witness :
    initialPoints
      (fun k => if k = "populationMapPoints" then some "oops" else none)
      (fun _ => Except.error "SyntaxError") = []
    ∧ runFetchSuggestions throwingOracles "ab" busySearchState =
        { suggestions := [3, 4], showSuggestions := true,
          isSearching := false } :=
  ⟨(errors_swallowed Nat Nat).1
      (fun k => if k = "populationMapPoints" then some "oops" else none)
      (fun _ => Except.error "SyntaxError") "oops" "SyntaxError" (by decide) rfl,
   (errors_swallowed Nat Nat).2 throwingOracles "ab" busySearchState 7 rfl⟩

/-! ### C4 — list/filter/sort bookkeeping -/

/-- C4: `sortedPointsForFilter` is a permutation of the district-filtered
points (no record added, removed or duplicated) sorted by name under the
`localeCompare` order (assumed transitive and total, as a collation is);
`districtFilteredPoints` is all points when no district is selected and
exactly the matching points otherwise; `filteredPoints` — the list
rendered in the sidebar and as markers — is the district-filtered list
minus the points whose id is hidden. -/
theorem listBookkeeping_spec (lc : String → String → Int)
    (points : List LocationPoint) (sd : String)
    (hiddenPointIds : List String)
    (htrans : ∀ a b c : String, lc a b ≤ 0 → lc b c ≤ 0 → lc a c ≤ 0)
    (htotal : ∀ a b : String, lc a b ≤ 0 ∨ lc b a ≤ 0) :
    (sortedPointsForFilter lc points sd).Perm
      (districtFilteredPoints points sd)
    ∧ (sortedPointsForFilter lc points sd).Pairwise
        (fun a b => lc a.name b.name ≤ 0)
    ∧ (sd = "" → districtFilteredPoints points sd = points)
    ∧ (sd ≠ "" → districtFilteredPoints points sd =
        points.filter (fun p => p.district == sd))
    ∧ (filteredPoints points sd hiddenPointIds).Sublist
        (districtFilteredPoints points sd)
    ∧ ∀ p : LocationPoint,
        p ∈ filteredPoints points sd hiddenPointIds ↔
          (p ∈ districtFilteredPoints points sd ∧
           p.id ∉ hiddenPointIds) := by
  refine ⟨List.mergeSort_perm _ _, ?_, fun h => by simp [districtFilteredPoints, h],
    fun h => by simp [districtFilteredPoints, h], List.filter_sublist _, ?_⟩
  · have hs := @List.sorted_mergeSort LocationPoint
      (fun a b => decide (lc a.name b.name ≤ 0))
      (fun a b c hab hbc => decide_eq_true
        (htrans a.name b.name c.name
          (of_decide_eq_true hab) (of_decide_eq_true hbc)))
      (fun a b => by rcases htotal a.name b.name with h | h <;> simp [h])
      (districtFilteredPoints points sd)
    exact hs.imp (fun h => of_decide_eq_true h)
  · intro p
    simp [filteredPoints, List.mem_filter]

/-- The constant comparator, a trivially consistent `localeCompare` model
for the C4 witness. -/
def lcConst : String → String → Int := fun _ _ => 0

/-- Two concrete points for the C4 witness. -/
def demoListPoints : List LocationPoint :=
  [{ id := "p1", lat := 0, lng := 0, name := "B", district := "D1",
     count := 5, createdAt := 0, voters := none },
   { id := "p2", lat := 0, lng := 0, name := "A", district := "D2",
     count := 6, createdAt := 0, voters := none }]

/-- C4 witness: with no district selected the district filter is the
identity. -/
theorem listBookkeeping_spec_witness :
    districtFilteredPoints demoListPoints "" = demoListPoints :=
  (listBookkeeping_spec lcConst demoListPoints "" []
      (fun _ _ _ h _ => h)
      (fun _ _ => Or.inl (Int.le_refl 0))).2.2.1 rfl

/-! ### C5 — the search box is debounced -/

/-- Soundness of the fired-timer semantics: every fired callback comes
either from the initially pending timer or from an input that was followed
by a full `debounceMs` of silence. -/
theorem firedQueries_sound :
    ∀ (inputs : List (Nat × String)) (pend : Option (Nat × String))
      (tEnd : Nat),
      List.Pairwise (fun a b => a.1 < b.1) inputs →
      (∀ p ∈ inputs, p.1 ≤ tEnd) →
      ∀ q ∈ firedQueries pend inputs tEnd,
        (∃ tf, pend = some (tf, q) ∧ tf ≤ tEnd ∧ ∀ p ∈ inputs, tf ≤ p.1)
        ∨ (∃ t, (t, q) ∈ inputs ∧ t + debounceMs ≤ tEnd ∧
            ∀ p ∈ inputs, p.1 ≤ t ∨ t + debounceMs ≤ p.1) := by
  intro inputs
  induction inputs with
  | nil =>
    intro pend tEnd _ _ q hq
    rcases pend with _ | ⟨tf, qp⟩
    · simp [firedQueries] at hq
    · by_cases h : tf ≤ tEnd
      · simp only [firedQueries, if_pos h, List.mem_singleton] at hq
        subst hq
        exact Or.inl ⟨tf, rfl, h, by simp⟩
      · simp [firedQueries, if_neg h] at hq
  | cons hd rest ih =>
    obtain ⟨t, qh⟩ := hd
    intro pend tEnd hsort hle q hq
    have hsort' := (List.pairwise_cons.mp hsort).2
    have hlt : ∀ p ∈ rest, t < p.1 := (List.pairwise_cons.mp hsort).1
    have hle' : ∀ p ∈ rest, p.1 ≤ tEnd :=
      fun p hp => hle p (List.mem_cons_of_mem _ hp)
    have htEnd : t ≤ tEnd := hle (t, qh) (List.mem_cons_self _ _)
    have tailCase :
        q ∈ firedQueries (some (t + debounceMs, qh)) rest tEnd →
        (∃ t2, ((t2, q) ∈ (t, qh) :: rest) ∧ t2 + debounceMs ≤ tEnd ∧
          ∀ p ∈ (t, qh) :: rest, p.1 ≤ t2 ∨ t2 + debounceMs ≤ p.1) := by
      intro hq'
      rcases ih (some (t + debounceMs, qh)) tEnd hsort' hle' q hq' with
        ⟨tf, heq, htf, hall⟩ | ⟨t2, hmem, hEnd2, hall⟩
      · obtain ⟨heq1, heq2⟩ : tf = t + debounceMs ∧ qh = q := by
          injection heq with h12
          injection h12 with ha hb
          exact ⟨ha.symm, hb⟩
        subst heq1; subst heq2
        refine ⟨t, List.mem_cons_self _ _, htf, ?_⟩
        intro p hp
        rcases List.mem_cons.mp hp with rfl | hp'
        · exact Or.inl (Nat.le_refl t)
        · exact Or.inr (hall p hp')
      · refine ⟨t2, List.mem_cons_of_mem _ hmem, hEnd2, ?_⟩
        intro p hp
        rcases List.mem_cons.mp hp with rfl | hp'
        · exact Or.inl (Nat.le_of_lt (hlt (t2, q) hmem))
        · exact hall p hp'
    rcases pend with _ | ⟨tf, qp⟩
    · exact Or.inr (tailCase hq)
    · by_cases h : tf ≤ t
      · simp only [firedQueries, if_pos h, List.mem_cons] at hq
        rcases hq with rfl | hq'
        · refine Or.inl ⟨tf, rfl, Nat.le_trans h htEnd, ?_⟩
          intro p hp
          rcases List.mem_cons.mp hp with rfl | hp'
          · exact h
          · exact Nat.le_trans h (Nat.le_of_lt (hlt p hp'))
        · exact Or.inr (tailCase hq')
      · simp only [firedQueries, if_neg h] at hq
        exact Or.inr (tailCase hq)

/-- C5: over any strictly time-ordered typing timeline, a suggestion fetch
is issued only for an input followed by a `debounceMs` (500 ms) pause in
typing, and only for a query whose trimmed length is at least 2; a short
query's callback instead clears the suggestion list and hides the
dropdown. -/
theorem debounce_spec (inputs : List (Nat × String)) (tEnd : Nat)
    (hsorted : List.Pairwise (fun a b => a.1 < b.1) inputs)
    (hle : ∀ p ∈ inputs, p.1 ≤ tEnd) :
    (∀ q, SearchAction.fetch q ∈ debounceActions inputs tEnd →
        2 ≤ (jsTrim q).length ∧
        ∃ t, (t, q) ∈ inputs ∧ t + debounceMs ≤ tEnd ∧
          ∀ p ∈ inputs, p.1 ≤ t ∨ t + debounceMs ≤ p.1)
    ∧ (∀ q, (jsTrim q).length < 2 →
        debounceBody q = SearchAction.clearAndHide) := by
  constructor
  · intro q hq
    obtain ⟨q', hq'mem, hbody⟩ := List.mem_map.mp hq
    have hlen : 2 ≤ (jsTrim q').length := by
      by_contra hshort
      rw [debounceBody, if_neg hshort] at hbody
      exact SearchAction.noConfusion hbody
    have hqq : q' = q := by
      rw [debounceBody, if_pos hlen] at hbody
      injection hbody
    subst hqq
    refine ⟨hlen, ?_⟩
    rcases firedQueries_sound inputs none tEnd hsorted hle q' hq'mem with
      ⟨tf, heq, _, _⟩ | h
    · exact Option.noConfusion heq
    · exact h
  · intro q h
    rw [debounceBody, if_neg (Nat.not_le.mpr h)]

/-- C5 witness: a single input `(0, "ab")` observed at 600 ms fired a fetch
after its 500 ms pause. -/
theorem debounce_spec_witness :
    2 ≤ (jsTrim "ab").length ∧
    ∃ t, (t, "ab") ∈ [(0, "ab")] ∧ t + debounceMs ≤ 600 ∧
      ∀ p ∈ [(0, "ab")], p.1 ≤ t ∨ t + debounceMs ≤ p.1 :=
  (debounce_spec [(0, "ab")] 600 (by simp) (by simp)).1 "ab" (by decide)

/-! ### C1 — the five-strategy search cascade -/

/-- C1: `fetchSuggestions` tries the strategies in order — strict Nominatim
(bounded=1), Arabic-normalized Overpass, relaxed Nominatim (bounded=0),
stop-word-stripped core name (Overpass then relaxed Nominatim), and the
`"مدرسة"` prefix retry (bounded=1) — invoking each later search only when
every earlier invoked search returned an empty list, and the suggestions
shown are the result of the first invocation that returned a non-empty
list.  The invocation trace starts with the strict search, its tags are a
subsequence of the strategy order, every invocation but the last returned
`[]`, and the selected data is the first non-empty trace result. -/
theorem fetchSuggestions_cascade (α : Type) (o : SearchOracles α)
    (searchQuery : String) :
    ((fetchTrace o searchQuery).map Prod.fst).Sublist
      [Strat.strictNominatim, Strat.fuzzyOverpass, Strat.relaxedNominatim,
       Strat.coreOverpass, Strat.coreNominatim, Strat.prefixRetry]
    ∧ ((fetchTrace o searchQuery).map Prod.fst).head? =
        some Strat.strictNominatim
    ∧ ((fetchTrace o searchQuery).dropLast.all (fun e => e.2.isEmpty))
    ∧ fetchSuggestionsData o searchQuery =
        firstNonEmptyResult (fetchTrace o searchQuery) := by
  cases h1 : (o.nominatim searchQuery 1).isEmpty with
  | false =>
    refine ⟨?_, ?_, ?_, ?_⟩
    · have ht : (fetchTrace o searchQuery).map Prod.fst =
          [Strat.strictNominatim] := by simp [fetchTrace, h1]
      rw [ht]; decide
    · simp [fetchTrace, h1]
    · simp [fetchTrace, h1]
    · simp [fetchTrace, fetchSuggestionsData, firstNonEmptyResult, h1]
  | true =>
    cases h2 : (searchOverpass o searchQuery).isEmpty with
    | false =>
      refine ⟨?_, ?_, ?_, ?_⟩
      · have ht : (fetchTrace o searchQuery).map Prod.fst =
            [Strat.strictNominatim, Strat.fuzzyOverpass] := by
          simp [fetchTrace, h1, h2]
        rw [ht]; decide
      · simp [fetchTrace, h1, h2]
      · simp [fetchTrace, h1, h2]
      · simp [fetchTrace, fetchSuggestionsData, firstNonEmptyResult, h1, h2]
    | true =>
      cases h3 : (o.nominatim searchQuery 0).isEmpty with
      | false =>
        refine ⟨?_, ?_, ?_, ?_⟩
        · have ht : (fetchTrace o searchQuery).map Prod.fst =
              [Strat.strictNominatim, Strat.fuzzyOverpass,
               Strat.relaxedNominatim] := by simp [fetchTrace, h1, h2, h3]
          rw [ht]; decide
        · simp [fetchTrace, h1, h2, h3]
        · simp [fetchTrace, h1, h2, h3]
        · simp [fetchTrace, fetchSuggestionsData, firstNonEmptyResult,
                h1, h2, h3]
      | true =>
        by_cases hg : coreNameOf searchQuery ≠ "" ∧
            3 ≤ (coreNameOf searchQuery).length ∧
            coreNameOf searchQuery ≠ searchQuery
        · cases h4a : (searchOverpass o (coreNameOf searchQuery)).isEmpty with
          | false =>
            refine ⟨?_, ?_, ?_, ?_⟩
            · have ht : (fetchTrace o searchQuery).map Prod.fst =
                  [Strat.strictNominatim, Strat.fuzzyOverpass,
                   Strat.relaxedNominatim, Strat.coreOverpass] := by
                simp [fetchTrace, h1, h2, h3, hg, h4a]
              rw [ht]; decide
            · simp [fetchTrace, h1, h2, h3, hg, h4a]
            · simp [fetchTrace, h1, h2, h3, hg, h4a]
            · simp [fetchTrace, fetchSuggestionsData, firstNonEmptyResult,
                    h1, h2, h3, hg, h4a]
          | true =>
            cases h4b : (o.nominatim (coreNameOf searchQuery) 0).isEmpty with
            | false =>
              refine ⟨?_, ?_, ?_, ?_⟩
              · have ht : (fetchTrace o searchQuery).map Prod.fst =
                    [Strat.strictNominatim, Strat.fuzzyOverpass,
                     Strat.relaxedNominatim, Strat.coreOverpass,
                     Strat.coreNominatim] := by
                  simp [fetchTrace, h1, h2, h3, hg, h4a, h4b]
                rw [ht]; decide
              · simp [fetchTrace, h1, h2, h3, hg, h4a, h4b]
              · simp [fetchTrace, h1, h2, h3, hg, h4a, h4b]
              · simp [fetchTrace, fetchSuggestionsData, firstNonEmptyResult,
                      h1, h2, h3, hg, h4a, h4b]
            | true =>
              cases hg5 : (!(strIncludes searchQuery "مدرسة") &&
                  !(strIncludes searchQuery "school")) with
              | true =>
                refine ⟨?_, ?_, ?_, ?_⟩
                · have ht : (fetchTrace o searchQuery).map Prod.fst =
                      [Strat.strictNominatim, Strat.fuzzyOverpass,
                       Strat.relaxedNominatim, Strat.coreOverpass,
                       Strat.coreNominatim, Strat.prefixRetry] := by
                    simp [fetchTrace, h1, h2, h3, hg, h4a, h4b, hg5]
                  rw [ht]
                · simp [fetchTrace, h1, h2, h3, hg, h4a, h4b, hg5]
                · simp [fetchTrace, h1, h2, h3, hg, h4a, h4b, hg5]
                · cases h5 : (o.nominatim ("مدرسة " ++ searchQuery) 1).isEmpty
                    with
                  | false =>
                    simp [fetchTrace, fetchSuggestionsData,
                          firstNonEmptyResult, h1, h2, h3, hg, h4a, h4b,
                          hg5, h5]
                  | true =>
                    simp [fetchTrace, fetchSuggestionsData,
                          firstNonEmptyResult, h1, h2, h3, hg, h4a, h4b,
                          hg5, h5, List.isEmpty_iff.mp h5]
              | false =>
                refine ⟨?_, ?_, ?_, ?_⟩
                · have ht : (fetchTrace o searchQuery).map Prod.fst =
                      [Strat.strictNominatim, Strat.fuzzyOverpass,
                       Strat.relaxedNominatim, Strat.coreOverpass,
                       Strat.coreNominatim] := by
                    simp [fetchTrace, h1, h2, h3, hg, h4a, h4b, hg5]
                  rw [ht]; decide
                · simp [fetchTrace, h1, h2, h3, hg, h4a, h4b, hg5]
                · simp [fetchTrace, h1, h2, h3, hg, h4a, h4b, hg5]
                · simp [fetchTrace, fetchSuggestionsData,
                        firstNonEmptyResult, h1, h2, h3, hg, h4a, h4b,
                        hg5, List.isEmpty_iff.mp h4b]
        · cases hg5 : (!(strIncludes searchQuery "مدرسة") &&
              !(strIncludes searchQuery "school")) with
          | true =>
            refine ⟨?_, ?_, ?_, ?_⟩
            · have ht : (fetchTrace o searchQuery).map Prod.fst =
                  [Strat.strictNominatim, Strat.fuzzyOverpass,
                   Strat.relaxedNominatim, Strat.prefixRetry] := by
                simp [fetchTrace, h1, h2, h3, hg, hg5]
              rw [ht]; decide
            · simp [fetchTrace, h1, h2, h3, hg, hg5]
            · simp [fetchTrace, h1, h2, h3, hg, hg5]
            · cases h5 : (o.nominatim ("مدرسة " ++ searchQuery) 1).isEmpty with
              | false =>
                simp [fetchTrace, fetchSuggestionsData, firstNonEmptyResult,
                      h1, h2, h3, hg, hg5, h5]
              | true =>
                simp [fetchTrace, fetchSuggestionsData, firstNonEmptyResult,
                      h1, h2, h3, hg, hg5, h5, List.isEmpty_iff.mp h5]
          | false =>
            refine ⟨?_, ?_, ?_, ?_⟩
            · have ht : (fetchTrace o searchQuery).map Prod.fst =
                  [Strat.strictNominatim, Strat.fuzzyOverpass,
                   Strat.relaxedNominatim] := by
                simp [fetchTrace, h1, h2, h3, hg, hg5]
              rw [ht]; decide
            · simp [fetchTrace, h1, h2, h3, hg, hg5]
            · simp [fetchTrace, h1, h2, h3, hg, hg5]
            · simp [fetchTrace, fetchSuggestionsData, firstNonEmptyResult,
                    h1, h2, h3, hg, hg5, List.isEmpty_iff.mp h3]
